import Mathlib

/-!
Verification of the ndp-ep client library specification.

The repository is a thin synchronous HTTP client binding: each public
method builds one HTTP request, sends it, and decodes the JSON response,
translating failures into a uniform error discipline.  The Python package
sources are not shipped here (only documentation and packaging), so all
operational definitions below are modelled from the specification text
(sections 4.1 to 4.8, 6 and 7 of spec.md) and the shipped documentation.
-/

namespace NdpEp

/-- Modelled from the spec: JSON values exchanged with the remote API
(mappings, sequences, scalars). Numbers are modelled as integers; no
claim depends on fractional values. -/
inductive Json where
  | null
  | bool (b : Bool)
  | num (n : Int)
  | str (s : String)
  | arr (elems : List Json)
  | obj (fields : List (String × Json))

/-- Look up a key in an association list of JSON object fields. -/
def lookupField : List (String × Json) → String → Option Json
  | [], _ => none
  | (k, v) :: rest, key => if k = key then some v else lookupField rest key

/-- Look up a key of a JSON object; `none` on non-objects. -/
def Json.lookup : Json → String → Option Json
  | .obj fields, key => lookupField fields key
  | _, _ => none

/-- Modelled from the spec: a value counts as empty for required-field
validation when it is null or an empty string. -/
def Json.isEmptyValue : Json → Bool
  | .null => true
  | .str s => s.isEmpty
  | _ => false

/-- A required field is violated when it is absent from the payload or
present with an empty value. -/
def fieldMissingOrEmpty (payload : Json) (f : String) : Bool :=
  match payload.lookup f with
  | none => true
  | some v => v.isEmptyValue

/-- First required field of the list that is missing or empty in the
payload, if any. -/
def firstMissing (payload : Json) : List String → Option String
  | [] => none
  | f :: rest =>
      if fieldMissingOrEmpty payload f then some f else firstMissing payload rest

/-- Modelled from the spec: the two error classes every public method may
raise. `valueError` covers local validation failures and API failures;
`connectionError` covers transport-level failures. -/
inductive ClientError where
  | valueError (msg : String)
  | connectionError (msg : String)
  deriving Repr, DecidableEq

/-- Raw body of an HTTP response: empty, valid JSON, or undecodable text. -/
inductive RawBody where
  | empty
  | json (j : Json)
  | invalid (text : String)

/-- Outcome of one HTTP exchange at the transport level: either a
transport failure (DNS, connection refused, timeout) or a response with a
status code and a raw body. -/
inductive TransportOutcome where
  | failure (cause : String)
  | response (status : Nat) (body : RawBody)

/-- An HTTP request as assembled by the client. -/
structure HttpRequest where
  method : String
  path : String
  query : List (String × String)
  body : Option Json
  headers : List (String × String)

/-- A backend maps each request to the transport outcome of sending it.
A fixed backend models an unchanged remote service. -/
abbrev Backend := HttpRequest → TransportOutcome

/-- Modelled from the spec: client configuration, a base URL plus an
optional bearer token, created at construction and immutable thereafter. -/
structure ClientConfig where
  baseUrl : String
  token : Option String
  deriving Repr, DecidableEq

/-- Authorization header attached when a bearer token is configured. -/
def authHeaders (cfg : ClientConfig) : List (String × String) :=
  match cfg.token with
  | some t => [("Authorization", "Bearer " ++ t)]
  | none => []

/-- Assemble one request: join the path with the base URL and attach the
authentication header. -/
def mkRequest (cfg : ClientConfig) (method path : String)
    (query : List (String × String)) (body : Option Json) : HttpRequest :=
  { method := method, path := cfg.baseUrl ++ path, query := query,
    body := body, headers := authHeaders cfg }

/-- 2xx status check. -/
def isSuccessStatus (s : Nat) : Bool := 200 ≤ s && s < 300

/-- Modelled from the spec: extract an error message from a non-2xx
response, preferring the `detail` key, then `message`, then the raw body
text, then the status line. -/
def extractErrorMessage (status : Nat) (body : RawBody) : String :=
  match body with
  | .json j =>
      match j.lookup "detail" with
      | some (.str m) => m
      | _ =>
          match j.lookup "message" with
          | some (.str m) => m
          | _ => "HTTP error " ++ toString status
  | .invalid text => text
  | .empty => "HTTP error " ++ toString status

/-- A JSON error body carries a server message when the detail key, or
else the message key, holds a string. -/
def carriedMessage (j : Json) : Option String :=
  match j.lookup "detail" with
  | some (.str m) => some m
  | _ =>
      match j.lookup "message" with
      | some (.str m) => some m
      | _ => none

/-- Modelled from the spec (section 4.1): normalize a transport outcome.
Transport failures become `connectionError`; 2xx responses decode the
JSON body (empty body is an empty result, undecodable body is a
`valueError`); non-2xx responses become a `valueError` carrying the
extracted server message prefixed with the operation name. -/
def processResponse (opName : String) (out : TransportOutcome) :
    Except ClientError Json :=
  match out with
  | .failure cause => .error (.connectionError cause)
  | .response status body =>
      if isSuccessStatus status then
        match body with
        | .json j => .ok j
        | .empty => .ok (Json.obj [])
        | .invalid _ => .error (.valueError (opName ++ ": invalid response format"))
      else
        .error (.valueError (opName ++ ": " ++ extractErrorMessage status body))

/-- Result of one public method call: the requests actually issued (in
order) and the final outcome. A local validation failure issues no
request. -/
structure CallResult where
  requests : List HttpRequest
  outcome : Except ClientError Json

/-- Issue exactly one request and normalize its outcome. -/
def sendRequest (opName : String) (req : HttpRequest) (backend : Backend) :
    CallResult :=
  { requests := [req], outcome := processResponse opName (backend req) }

/-- Fail locally with a validation error, issuing no request. -/
def failLocal (msg : String) : CallResult :=
  { requests := [], outcome := .error (.valueError msg) }

/-- The resource kinds that can be registered. -/
inductive ResourceKind where
  | organization
  | url
  | s3
  | kafka
  | service
  | dataset
  deriving Repr, DecidableEq

/-- Modelled from the spec (section 6 table): required payload fields per
resource kind. -/
def requiredFields : ResourceKind → List String
  | .organization => ["name", "title"]
  | .url => ["resource_name", "resource_title", "owner_org", "resource_url"]
  | .s3 => ["resource_name", "resource_title", "owner_org", "resource_s3"]
  | .kafka => ["dataset_name", "dataset_title", "owner_org",
               "kafka_topic", "kafka_host", "kafka_port"]
  | .service => ["service_name", "service_title", "owner_org", "service_url"]
  | .dataset => ["name", "title", "owner_org"]

/-- Registration endpoint path per resource kind. -/
def registrationPath : ResourceKind → String
  | .organization => "/organization"
  | .url => "/url"
  | .s3 => "/s3"
  | .kafka => "/kafka"
  | .service => "/services"
  | .dataset => "/dataset"

/-- Name of the registration operation per resource kind, used as error
context. -/
def registrationOpName : ResourceKind → String
  | .organization => "register_organization"
  | .url => "register_url"
  | .s3 => "register_s3_link"
  | .kafka => "register_kafka_topic"
  | .service => "register_service"
  | .dataset => "register_dataset"

/-- Validation error message naming the missing field. -/
def missingFieldMessage (f : String) : String :=
  "Missing required field: " ++ f

/-- Optional server selector forwarded as a query parameter. -/
def serverQuery : Option String → List (String × String)
  | some s => [("server", s)]
  | none => []

/-- Modelled from the spec: the default server for listing and searching
is the global instance. -/
def searchDefaultServer (server : Option String) : String :=
  server.getD "global"

/-- Modelled from the spec (section 4.4): register a resource. Validate
presence of the required fields locally, failing fast with a message
naming the first missing field and issuing no request; otherwise POST the
payload verbatim to the kind-specific path. -/
def registerResource (cfg : ClientConfig) (kind : ResourceKind)
    (payload : Json) (server : Option String) (backend : Backend) :
    CallResult :=
  match firstMissing payload (requiredFields kind) with
  | some f => failLocal (missingFieldMessage f)
  | none =>
      sendRequest (registrationOpName kind)
        (mkRequest cfg "POST" (registrationPath kind) (serverQuery server)
          (some payload)) backend

/-- Register an organization (requires name and title). -/
def register_organization (cfg : ClientConfig) (payload : Json)
    (server : Option String) (backend : Backend) : CallResult :=
  registerResource cfg .organization payload server backend

/-- List organization names; the server selector defaults to global. -/
def list_organizations (cfg : ClientConfig) (nameFilter : Option String)
    (server : Option String) (backend : Backend) : CallResult :=
  sendRequest "list_organizations"
    (mkRequest cfg "GET" "/organization"
      ((match nameFilter with | some n => [("name", n)] | none => []) ++
        [("server", searchDefaultServer server)]) none) backend

/-- Delete an organization by name. -/
def delete_organization (cfg : ClientConfig) (name : String)
    (server : Option String) (backend : Backend) : CallResult :=
  sendRequest "delete_organization"
    (mkRequest cfg "DELETE" ("/organization/" ++ name) (serverQuery server)
      none) backend

/-- Query string for the simple search: repeated term parameters, the
scoping keys that are present, and the server selector (global by
default). -/
def searchQuery (terms : List String) (keys : Option (List (Option String)))
    (server : Option String) : List (String × String) :=
  terms.map (fun t => ("terms", t)) ++
    (match keys with
     | some ks => (ks.filterMap id).map (fun k => ("keys", k))
     | none => []) ++
    [("server", searchDefaultServer server)]

/-- Modelled from the spec (section 4.7): simple dataset search. When the
keys sequence is supplied its length must match the terms; a mismatch
fails locally before any request. -/
def search_datasets (cfg : ClientConfig) (terms : List String)
    (keys : Option (List (Option String))) (server : Option String)
    (backend : Backend) : CallResult :=
  match keys with
  | some ks =>
      if ks.length = terms.length then
        sendRequest "search_datasets"
          (mkRequest cfg "GET" "/search" (searchQuery terms (some ks) server)
            none) backend
      else
        failLocal "Length of terms and keys must match"
  | none =>
      sendRequest "search_datasets"
        (mkRequest cfg "GET" "/search" (searchQuery terms none server) none)
        backend

/-- Modelled from the spec (section 4.7): advanced search POSTs the
payload, which must carry the required server key. -/
def advanced_search (cfg : ClientConfig) (payload : Json)
    (backend : Backend) : CallResult :=
  match firstMissing payload ["server"] with
  | some f => failLocal (missingFieldMessage f)
  | none =>
      sendRequest "advanced_search"
        (mkRequest cfg "POST" "/search" [] (some payload)) backend

/-- System status: one GET with no body. -/
def get_system_status (cfg : ClientConfig) (backend : Backend) : CallResult :=
  sendRequest "get_system_status" (mkRequest cfg "GET" "/status" [] none)
    backend

/-- System metrics: one GET with no body. -/
def get_system_metrics (cfg : ClientConfig) (backend : Backend) : CallResult :=
  sendRequest "get_system_metrics"
    (mkRequest cfg "GET" "/status/metrics" [] none) backend

/-- Kafka connection details: one GET with no body. -/
def get_kafka_details (cfg : ClientConfig) (backend : Backend) : CallResult :=
  sendRequest "get_kafka_details"
    (mkRequest cfg "GET" "/status/kafka" [] none) backend

/-- Jupyter connection details: one GET with no body. -/
def get_jupyter_details (cfg : ClientConfig) (backend : Backend) : CallResult :=
  sendRequest "get_jupyter_details"
    (mkRequest cfg "GET" "/status/jupyter" [] none) backend

/-- Modelled from the spec (section 4.5): full update validates the same
required fields as registration and PUTs the payload to the kind path
plus the resource name. -/
def update_resource (cfg : ClientConfig) (kind : ResourceKind)
    (name : String) (payload : Json) (backend : Backend) : CallResult :=
  match firstMissing payload (requiredFields kind) with
  | some f => failLocal (missingFieldMessage f)
  | none =>
      sendRequest ("update_" ++ registrationOpName kind)
        (mkRequest cfg "PUT" (registrationPath kind ++ "/" ++ name) []
          (some payload)) backend

/-- Modelled from the spec (section 4.5): partial update forwards exactly
the supplied keys with no required-field validation. -/
def patch_resource (cfg : ClientConfig) (kind : ResourceKind)
    (name : String) (payload : Json) (backend : Backend) : CallResult :=
  sendRequest ("patch_" ++ registrationOpName kind)
    (mkRequest cfg "PATCH" (registrationPath kind ++ "/" ++ name) []
      (some payload)) backend

/-- Delete a resource by opaque identifier. -/
def delete_resource_by_id (cfg : ClientConfig) (id : String)
    (backend : Backend) : CallResult :=
  sendRequest "delete_resource_by_id"
    (mkRequest cfg "DELETE" ("/resource/" ++ id) [] none) backend

/-- Delete a resource by its human-assigned name. -/
def delete_resource_by_name (cfg : ClientConfig) (name : String)
    (backend : Backend) : CallResult :=
  sendRequest "delete_resource_by_name"
    (mkRequest cfg "DELETE" "/resource" [("name", name)] none) backend

/-- The public client methods, with their arguments. -/
inductive Op where
  | getSystemStatus
  | getSystemMetrics
  | getKafkaDetails
  | getJupyterDetails
  | listOrganizations (nameFilter : Option String) (server : Option String)
  | registerResource (kind : ResourceKind) (payload : Json)
      (server : Option String)
  | deleteOrganization (name : String) (server : Option String)
  | updateResource (kind : ResourceKind) (name : String) (payload : Json)
  | patchResource (kind : ResourceKind) (name : String) (payload : Json)
  | deleteResourceById (id : String)
  | deleteResourceByName (name : String)
  | searchDatasets (terms : List String)
      (keys : Option (List (Option String))) (server : Option String)
  | advancedSearch (payload : Json)

/-- Run one public method against a backend, threading the client
configuration explicitly so that state mutation, were there any, would be
observable. Returns the call result together with the configuration the
client holds afterwards. -/
def runOp (cfg : ClientConfig) (op : Op) (backend : Backend) :
    CallResult × ClientConfig :=
  match op with
  | .getSystemStatus => (get_system_status cfg backend, cfg)
  | .getSystemMetrics => (get_system_metrics cfg backend, cfg)
  | .getKafkaDetails => (get_kafka_details cfg backend, cfg)
  | .getJupyterDetails => (get_jupyter_details cfg backend, cfg)
  | .listOrganizations nf server => (list_organizations cfg nf server backend, cfg)
  | .registerResource kind payload server =>
      (registerResource cfg kind payload server backend, cfg)
  | .deleteOrganization name server =>
      (delete_organization cfg name server backend, cfg)
  | .updateResource kind name payload =>
      (update_resource cfg kind name payload backend, cfg)
  | .patchResource kind name payload =>
      (patch_resource cfg kind name payload backend, cfg)
  | .deleteResourceById id => (delete_resource_by_id cfg id backend, cfg)
  | .deleteResourceByName name => (delete_resource_by_name cfg name backend, cfg)
  | .searchDatasets terms keys server =>
      (search_datasets cfg terms keys server backend, cfg)
  | .advancedSearch payload => (advanced_search cfg payload backend, cfg)

/-- Run a sequence of public method calls, threading the configuration. -/
def runSeq (cfg : ClientConfig) (ops : List Op) (backend : Backend) :
    List CallResult × ClientConfig :=
  match ops with
  | [] => ([], cfg)
  | op :: rest =>
      let step := runOp cfg op backend
      let next := runSeq step.2 rest backend
      (step.1 :: next.1, next.2)

/-- The login request issued when the client is constructed with a
username and password. -/
def loginRequest (baseUrl username password : String) : HttpRequest :=
  { method := "POST", path := baseUrl ++ "/token", query := [],
    body := some (Json.obj [("username", Json.str username),
                           ("password", Json.str password)]),
    headers := [] }

/-- Access token extracted from a login response body, when present. -/
def getAccessToken (body : RawBody) : Option String :=
  match body with
  | .json j =>
      match j.lookup "access_token" with
      | some (.str t) => some t
      | _ => none
  | _ => none

/-- Result of client construction: the requests issued during
construction and either the resulting configuration or a failure. -/
structure ConstructResult where
  requests : List HttpRequest
  outcome : Except ClientError ClientConfig

/-- Modelled from the spec (section 4.2): client construction. A supplied
token is used directly with no network call; a username and password
trigger exactly one login exchange whose failure modes are a non-2xx
response (invalid credentials) or a 2xx response carrying no access
token; with neither, the client stays unauthenticated. -/
def constructClient (baseUrl : String)
    (token username password : Option String) (backend : Backend) :
    ConstructResult :=
  match token with
  | some t => { requests := [], outcome := .ok ⟨baseUrl, some t⟩ }
  | none =>
      match username, password with
      | some u, some p =>
          let req := loginRequest baseUrl u p
          match backend req with
          | .failure cause =>
              { requests := [req], outcome := .error (.connectionError cause) }
          | .response status body =>
              if isSuccessStatus status then
                match getAccessToken body with
                | some tok =>
                    { requests := [req], outcome := .ok ⟨baseUrl, some tok⟩ }
                | none =>
                    { requests := [req],
                      outcome := .error (.valueError "No access token received") }
              else
                { requests := [req],
                  outcome := .error (.valueError "Invalid username or password") }
      | _, _ => { requests := [], outcome := .ok ⟨baseUrl, none⟩ }

/-! Concrete fixtures used by the closed check theorems. -/

/-- Example configuration used in concrete check theorems. -/
def cfgEx : ClientConfig := ⟨"http://h", some "tok"⟩

/-- Backend stub answering every request with a fixed status and body. -/
def constBackend (status : Nat) (body : RawBody) : Backend :=
  fun _ => .response status body

/-- Backend stub failing every request at the transport level, modelling
an unreachable service. -/
def downBackend (cause : String) : Backend := fun _ => .failure cause

/-- The organization payload of the round-trip check: name and title
supplied, description absent. -/
def orgPayloadExample : Json := .obj [("name", .str "a"), ("title", .str "B")]

/-- The mocked registration response of the round-trip check. -/
def orgResponseExample : Json :=
  .obj [("id", .str "123"), ("message", .str "ok")]

/-- A 500 response body carrying a server message under the detail key. -/
def internalErrorBody : Json := .obj [("detail", .str "internal error")]

/-! Helper lemmas shared by the claim theorems. -/

/-- Running any single public method leaves the client configuration
untouched. -/
theorem runOp_config (cfg : ClientConfig) (op : Op) (backend : Backend) :
    (runOp cfg op backend).2 = cfg := by
  cases op <;> rfl

/-- Every public method call is either a local validation failure issuing
no request, or a single request sent through the shared
request-and-normalize discipline. -/
theorem runOp_shape (cfg : ClientConfig) (op : Op) (backend : Backend) :
    (∃ m, (runOp cfg op backend).1 = failLocal m) ∨
    (∃ n req, (runOp cfg op backend).1 = sendRequest n req backend) := by
  cases op with
  | getSystemStatus => exact Or.inr ⟨_, _, rfl⟩
  | getSystemMetrics => exact Or.inr ⟨_, _, rfl⟩
  | getKafkaDetails => exact Or.inr ⟨_, _, rfl⟩
  | getJupyterDetails => exact Or.inr ⟨_, _, rfl⟩
  | listOrganizations nf server => exact Or.inr ⟨_, _, rfl⟩
  | registerResource kind payload server =>
      cases h : firstMissing payload (requiredFields kind) with
      | some f =>
          exact Or.inl ⟨missingFieldMessage f, by
            simp [runOp, registerResource, h]⟩
      | none =>
          exact Or.inr ⟨registrationOpName kind,
            mkRequest cfg "POST" (registrationPath kind) (serverQuery server)
              (some payload), by simp [runOp, registerResource, h]⟩
  | deleteOrganization name server => exact Or.inr ⟨_, _, rfl⟩
  | updateResource kind name payload =>
      cases h : firstMissing payload (requiredFields kind) with
      | some f =>
          exact Or.inl ⟨missingFieldMessage f, by
            simp [runOp, update_resource, h]⟩
      | none =>
          exact Or.inr ⟨"update_" ++ registrationOpName kind,
            mkRequest cfg "PUT" (registrationPath kind ++ "/" ++ name) []
              (some payload), by simp [runOp, update_resource, h]⟩
  | patchResource kind name payload => exact Or.inr ⟨_, _, rfl⟩
  | deleteResourceById id => exact Or.inr ⟨_, _, rfl⟩
  | deleteResourceByName name => exact Or.inr ⟨_, _, rfl⟩
  | searchDatasets terms keys server =>
      cases keys with
      | none => exact Or.inr ⟨_, _, rfl⟩
      | some ks =>
          by_cases h : ks.length = terms.length
          · exact Or.inr ⟨"search_datasets",
              mkRequest cfg "GET" "/search" (searchQuery terms (some ks) server)
                none, by simp [runOp, search_datasets, h]⟩
          · exact Or.inl ⟨"Length of terms and keys must match", by
              simp [runOp, search_datasets, h]⟩
  | advancedSearch payload =>
      cases h : firstMissing payload ["server"] with
      | some f =>
          exact Or.inl ⟨missingFieldMessage f, by
            simp [runOp, advanced_search, h]⟩
      | none =>
          exact Or.inr ⟨"advanced_search",
            mkRequest cfg "POST" "/search" [] (some payload),
            by simp [runOp, advanced_search, h]⟩

/-- A successful normalized outcome is always the complete decoded JSON
body of a 2xx response (an empty body yields the empty object). -/
theorem processResponse_ok {n : String} {out : TransportOutcome} {j : Json}
    (h : processResponse n out = .ok j) :
    ∃ status body, out = .response status body ∧
      isSuccessStatus status = true ∧
      (body = .json j ∨ (body = .empty ∧ j = Json.obj [])) := by
  cases out with
  | failure cause => simp [processResponse] at h
  | response status body =>
      by_cases hs : isSuccessStatus status = true
      · cases body with
        | empty =>
            refine ⟨status, .empty, rfl, hs, Or.inr ⟨rfl, ?_⟩⟩
            simp [processResponse, hs] at h
            exact h.symm
        | json jj =>
            refine ⟨status, .json jj, rfl, hs, Or.inl ?_⟩
            simp [processResponse, hs] at h
            rw [h]
        | invalid t => simp [processResponse, hs] at h
      · simp [processResponse, hs] at h

/-- If some required field is missing or empty, the first-missing scan
finds a missing or empty required field. -/
theorem firstMissing_of_mem {payload : Json} {fields : List String}
    {f : String} (hmem : f ∈ fields)
    (hmiss : fieldMissingOrEmpty payload f = true) :
    ∃ g, firstMissing payload fields = some g ∧ g ∈ fields ∧
      fieldMissingOrEmpty payload g = true := by
  induction fields with
  | nil => cases hmem
  | cons a rest ih =>
      by_cases h : fieldMissingOrEmpty payload a = true
      · exact ⟨a, by simp [firstMissing, h], List.mem_cons_self a rest, h⟩
      · have hf : f ∈ rest := by
          rcases List.mem_cons.mp hmem with he | h2
          · exact absurd (he ▸ hmiss) h
          · exact h2
        obtain ⟨g, hg1, hg2, hg3⟩ := ih hf
        exact ⟨g, by simp [firstMissing, h, hg1], List.mem_cons_of_mem a hg2,
          hg3⟩

/-- When a JSON error body carries a server message, message extraction
returns exactly that message, whatever the status. -/
theorem extractErrorMessage_of_carried {j : Json} {msg : String}
    (status : Nat) (h : carriedMessage j = some msg) :
    extractErrorMessage status (.json j) = msg := by
  cases hd : j.lookup "detail" with
  | some v =>
      cases v with
      | str m => simp_all [carriedMessage, extractErrorMessage, hd]
      | null =>
          cases hm : j.lookup "message" with
          | some w =>
              cases w <;> simp_all [carriedMessage, extractErrorMessage, hd, hm]
          | none => simp_all [carriedMessage, extractErrorMessage, hd, hm]
      | bool b =>
          cases hm : j.lookup "message" with
          | some w =>
              cases w <;> simp_all [carriedMessage, extractErrorMessage, hd, hm]
          | none => simp_all [carriedMessage, extractErrorMessage, hd, hm]
      | num n =>
          cases hm : j.lookup "message" with
          | some w =>
              cases w <;> simp_all [carriedMessage, extractErrorMessage, hd, hm]
          | none => simp_all [carriedMessage, extractErrorMessage, hd, hm]
      | arr xs =>
          cases hm : j.lookup "message" with
          | some w =>
              cases w <;> simp_all [carriedMessage, extractErrorMessage, hd, hm]
          | none => simp_all [carriedMessage, extractErrorMessage, hd, hm]
      | obj fs =>
          cases hm : j.lookup "message" with
          | some w =>
              cases w <;> simp_all [carriedMessage, extractErrorMessage, hd, hm]
          | none => simp_all [carriedMessage, extractErrorMessage, hd, hm]
  | none =>
      cases hm : j.lookup "message" with
      | some w =>
          cases w <;> simp_all [carriedMessage, extractErrorMessage, hd, hm]
      | none => simp_all [carriedMessage, extractErrorMessage, hd, hm]

/-- A 4xx or 5xx status is not a success status. -/
theorem isSuccessStatus_false_of_error {status : Nat} (h4 : 400 ≤ status) :
    isSuccessStatus status = false := by
  simp only [isSuccessStatus, Bool.and_eq_false_iff, decide_eq_false_iff_not,
    not_le, not_lt]
  omega

/-! The claim theorems. -/

/-- Claim C8: for every client and every sequence of public method calls
after construction, the configuration (base URL and bearer token) is
unchanged by every call; no operation re-logs-in, refreshes the token, or
mutates client state after construction completes. -/
theorem config_immutable_across_calls (cfg : ClientConfig) (ops : List Op)
    (backend : Backend) : (runSeq cfg ops backend).2 = cfg := by
  induction ops generalizing cfg with
  | nil => rfl
  | cons op rest ih =>
      simp only [runSeq, runOp_config]
      exact ih cfg

/-- Claim C9: every read operation is deterministic in the response of an
unchanged backend: running the same call twice in sequence yields the
identical result both times; and a mocked list response from
list_organizations is returned with order preserved. -/
theorem get_reads_deterministic :
    (∀ (cfg : ClientConfig) (backend : Backend) (op : Op),
      (runSeq cfg [op, op] backend).1 =
        [(runOp cfg op backend).1, (runOp cfg op backend).1]) ∧
    (list_organizations ⟨"http://h", some "tok"⟩ none (some "global")
        (fun _ => .response 200
          (.json (.arr [.str "a", .str "b", .str "c"])))).outcome =
      .ok (.arr [.str "a", .str "b", .str "c"]) := by
  constructor
  · intro cfg backend op
    simp only [runSeq, runOp_config]
  · rfl

/-- Claim C10: when the server parameter is omitted, list_organizations
and dataset search target the global server by default: the call is
identical to the one with the global server explicitly supplied. -/
theorem omitted_server_defaults_to_global (cfg : ClientConfig)
    (nameFilter : Option String) (terms : List String)
    (keys : Option (List (Option String))) (backend : Backend) :
    list_organizations cfg nameFilter none backend =
      list_organizations cfg nameFilter (some "global") backend ∧
    search_datasets cfg terms keys none backend =
      search_datasets cfg terms keys (some "global") backend := by
  constructor
  · rfl
  · cases keys with
    | none => rfl
    | some ks => simp only [search_datasets, searchQuery, searchDefaultServer,
        Option.getD]

/-- Claim C1: every public client method either returns the complete
decoded JSON value of a 2xx response of its single HTTP exchange or
fails with a valueError-class or connectionError-class signal; an ok
result is exactly the decoded response body (the empty object for an
empty body), never a partially-decoded or silently-wrong value. -/
theorem ok_results_are_fully_decoded (cfg : ClientConfig) (op : Op)
    (backend : Backend) (j : Json)
    (hok : (runOp cfg op backend).1.outcome = .ok j) :
    ∃ req status, req ∈ (runOp cfg op backend).1.requests ∧
      isSuccessStatus status = true ∧
      (backend req = .response status (.json j) ∨
        (backend req = .response status .empty ∧ j = Json.obj [])) := by
  rcases runOp_shape cfg op backend with ⟨m, hm⟩ | ⟨n, req, hr⟩
  · rw [hm] at hok
    simp [failLocal] at hok
  · rw [hr] at hok ⊢
    simp only [sendRequest] at hok ⊢
    obtain ⟨status, body, hout, hs, hbody⟩ := processResponse_ok hok
    refine ⟨req, status, List.mem_singleton.mpr rfl, hs, ?_⟩
    rcases hbody with hb | ⟨hb, hj⟩
    · exact Or.inl (by rw [hout, hb])
    · exact Or.inr ⟨by rw [hout, hb], hj⟩

/-- Witness for claim C1: get_system_status against a mock backend
answering 200 with a JSON body returns that body fully decoded. -/
theorem ok_results_are_fully_decoded_witness :
    ∃ req status,
      req ∈ (runOp cfgEx Op.getSystemStatus
        (constBackend 200 (.json (.str "up")))).1.requests ∧
      isSuccessStatus status = true ∧
      (constBackend 200 (.json (.str "up")) req =
          .response status (.json (.str "up")) ∨
        (constBackend 200 (.json (.str "up")) req =
            .response status .empty ∧ Json.str "up" = Json.obj [])) :=
  ok_results_are_fully_decoded cfgEx Op.getSystemStatus
    (constBackend 200 (.json (.str "up"))) (.str "up") rfl

/-- Claim C2: a transport-level failure on any operation that issues a
request raises the connectionError class, which is distinct by
construction from the valueError class used for local validation and API
failures, so a caller can tell the two apart by the class alone. -/
theorem transport_failure_raises_connection_error (cfg : ClientConfig)
    (op : Op) (cause : String)
    (hsent : (runOp cfg op (downBackend cause)).1.requests ≠ []) :
    (runOp cfg op (downBackend cause)).1.outcome =
      .error (.connectionError cause) ∧
    ∀ m, ClientError.connectionError cause ≠ ClientError.valueError m := by
  refine ⟨?_, fun m h => ClientError.noConfusion h⟩
  rcases runOp_shape cfg op (downBackend cause) with ⟨m, hm⟩ | ⟨n, req, hr⟩
  · rw [hm] at hsent
    simp [failLocal] at hsent
  · rw [hr]
    rfl

/-- Witness for claim C2: get_system_status against an unreachable
backend raises the connectionError class. -/
theorem transport_failure_raises_connection_error_witness :
    (runOp cfgEx Op.getSystemStatus (downBackend "refused")).1.requests ≠ [] ∧
    (runOp cfgEx Op.getSystemStatus (downBackend "refused")).1.outcome =
      .error (.connectionError "refused") := by
  have hne : (runOp cfgEx Op.getSystemStatus
      (downBackend "refused")).1.requests ≠ [] := by
    simp [runOp, get_system_status, sendRequest]
  exact ⟨hne, (transport_failure_raises_connection_error cfgEx
    Op.getSystemStatus "refused" hne).1⟩

/-- Claim C6: for every operation that issues a request and every 4xx or
5xx response whose JSON body carries a server message (under the detail
key, or else the message key), the call raises a valueError whose
message contains that server-provided message; in particular a 500
response with detail "internal error" surfaces "internal error". -/
theorem server_error_message_surfaced (cfg : ClientConfig) (op : Op)
    (status : Nat) (j : Json) (msg : String)
    (h4 : 400 ≤ status) (h6 : status < 600)
    (hmsg : carriedMessage j = some msg)
    (hsent : (runOp cfg op
      (constBackend status (.json j))).1.requests ≠ []) :
    ∃ pre, (runOp cfg op (constBackend status (.json j))).1.outcome =
      .error (.valueError (pre ++ msg)) := by
  rcases runOp_shape cfg op (constBackend status (.json j)) with
    ⟨m, hm⟩ | ⟨n, req, hr⟩
  · rw [hm] at hsent
    simp [failLocal] at hsent
  · refine ⟨n ++ ": ", ?_⟩
    rw [hr]
    simp [sendRequest, constBackend, processResponse,
      isSuccessStatus_false_of_error h4,
      extractErrorMessage_of_carried status hmsg]

/-- Witness for claim C6: get_system_status against a mock backend
answering 500 with detail "internal error". -/
theorem server_error_message_surfaced_witness :
    400 ≤ 500 ∧ 500 < 600 ∧
    carriedMessage internalErrorBody = some "internal error" ∧
    (runOp cfgEx Op.getSystemStatus
      (constBackend 500 (.json internalErrorBody))).1.requests ≠ [] ∧
    ∃ pre, (runOp cfgEx Op.getSystemStatus
        (constBackend 500 (.json internalErrorBody))).1.outcome =
      .error (.valueError (pre ++ "internal error")) := by
  have hne : (runOp cfgEx Op.getSystemStatus
      (constBackend 500 (.json internalErrorBody))).1.requests ≠ [] := by
    simp [runOp, get_system_status, sendRequest]
  exact ⟨by decide, by decide, rfl, hne,
    server_error_message_surfaced cfgEx Op.getSystemStatus 500
      internalErrorBody "internal error" (by decide) (by decide) rfl hne⟩

/-- Claim C3: for every resource-registration operation (organization,
URL, S3, Kafka, service, generic dataset), a payload in which some
required field is missing or empty fails with a valueError whose message
names a missing field, and no network request is issued. -/
theorem register_missing_required_field_fails_locally (cfg : ClientConfig)
    (kind : ResourceKind) (payload : Json) (server : Option String)
    (backend : Backend) (f : String) (hmem : f ∈ requiredFields kind)
    (hmiss : fieldMissingOrEmpty payload f = true) :
    (registerResource cfg kind payload server backend).requests = [] ∧
    ∃ g, g ∈ requiredFields kind ∧ fieldMissingOrEmpty payload g = true ∧
      (registerResource cfg kind payload server backend).outcome =
        .error (.valueError (missingFieldMessage g)) := by
  obtain ⟨g, hg1, hg2, hg3⟩ := firstMissing_of_mem hmem hmiss
  refine ⟨?_, g, hg2, hg3, ?_⟩ <;>
    simp [registerResource, hg1, failLocal]

/-- Witness for claim C3: registering an organization whose payload
lacks the required title field fails locally naming the field. -/
theorem register_missing_required_field_fails_locally_witness :
    "title" ∈ requiredFields ResourceKind.organization ∧
    fieldMissingOrEmpty (Json.obj [("name", .str "a")]) "title" = true ∧
    ((registerResource cfgEx .organization (Json.obj [("name", .str "a")])
        none (constBackend 200 .empty)).requests = [] ∧
      ∃ g, g ∈ requiredFields ResourceKind.organization ∧
        fieldMissingOrEmpty (Json.obj [("name", .str "a")]) g = true ∧
        (registerResource cfgEx .organization (Json.obj [("name", .str "a")])
            none (constBackend 200 .empty)).outcome =
          .error (.valueError (missingFieldMessage g))) :=
  ⟨by simp [requiredFields], rfl,
    register_missing_required_field_fails_locally cfgEx .organization
      (Json.obj [("name", .str "a")]) none (constBackend 200 .empty) "title"
      (by simp [requiredFields]) rfl⟩

/-- Claim C4: construction with username and password issues exactly one
login request; a transport failure surfaces as connectionError; a non-2xx
login response fails construction with the message "Invalid username or
password" with no further requests; a 2xx response without an access
token fails with "No access token received"; on success the client holds
the returned token. -/
theorem construction_login_contract (baseUrl u p : String)
    (backend : Backend) :
    (constructClient baseUrl none (some u) (some p) backend).requests =
      [loginRequest baseUrl u p] ∧
    (∀ cause, backend (loginRequest baseUrl u p) = .failure cause →
      (constructClient baseUrl none (some u) (some p) backend).outcome =
        .error (.connectionError cause)) ∧
    (∀ status body,
      backend (loginRequest baseUrl u p) = .response status body →
      ((isSuccessStatus status = false →
        (constructClient baseUrl none (some u) (some p) backend).outcome =
          .error (.valueError "Invalid username or password")) ∧
       (isSuccessStatus status = true → getAccessToken body = none →
        (constructClient baseUrl none (some u) (some p) backend).outcome =
          .error (.valueError "No access token received")) ∧
       (∀ tok, isSuccessStatus status = true →
        getAccessToken body = some tok →
        (constructClient baseUrl none (some u) (some p) backend).outcome =
          .ok ⟨baseUrl, some tok⟩))) := by
  refine ⟨?_, ?_, ?_⟩
  · cases hb : backend (loginRequest baseUrl u p) with
    | failure cause => simp [constructClient, hb]
    | response status body =>
        by_cases hs : isSuccessStatus status = true
        · cases hg : getAccessToken body <;>
            simp [constructClient, hb, hs, hg]
        · simp [constructClient, hb, hs]
  · intro cause hb
    simp [constructClient, hb]
  · intro status body hb
    refine ⟨fun hs => ?_, fun hs hg => ?_, fun tok hs hg => ?_⟩
    · simp [constructClient, hb, hs]
    · simp [constructClient, hb, hs, hg]
    · simp [constructClient, hb, hs, hg]

/-- Witness for claim C4: a mock login endpoint answering 401 fails
construction with the invalid-credentials message, having issued exactly
the one login request. -/
theorem construction_login_contract_witness :
    (constructClient "http://h" none (some "u") (some "p")
        (constBackend 401 .empty)).requests =
      [loginRequest "http://h" "u" "p"] ∧
    (constructClient "http://h" none (some "u") (some "p")
        (constBackend 401 .empty)).outcome =
      .error (.valueError "Invalid username or password") := by
  have h := construction_login_contract "http://h" "u" "p"
    (constBackend 401 .empty)
  exact ⟨h.1, (h.2.2 401 .empty rfl).1 rfl⟩

/-- Claim C5: register_organization with payload containing name "a" and
title "B" against a mock answering 2xx with an id-and-message body
returns exactly that mapping; the request body sent is exactly the
supplied payload, so it contains name and title and no description key;
and in general a valid payload is forwarded verbatim as the request body,
omitting any field the caller did not supply. -/
theorem register_organization_round_trip :
    ((register_organization cfgEx orgPayloadExample none
        (constBackend 200 (.json orgResponseExample))).outcome =
      .ok orgResponseExample ∧
     (register_organization cfgEx orgPayloadExample none
        (constBackend 200 (.json orgResponseExample))).requests.map
          HttpRequest.body = [some orgPayloadExample] ∧
     orgPayloadExample.lookup "name" = some (.str "a") ∧
     orgPayloadExample.lookup "title" = some (.str "B") ∧
     orgPayloadExample.lookup "description" = none) ∧
    ∀ (cfg : ClientConfig) (payload : Json) (server : Option String)
      (backend : Backend),
      firstMissing payload (requiredFields .organization) = none →
      (register_organization cfg payload server backend).requests =
        [mkRequest cfg "POST" "/organization" (serverQuery server)
          (some payload)] := by
  refine ⟨⟨rfl, rfl, rfl, rfl, rfl⟩, ?_⟩
  intro cfg payload server backend h
  simp [register_organization, registerResource, h, sendRequest,
    registrationPath]

/-- Witness for claim C5: the valid example payload is sent verbatim as
the request body. -/
theorem register_organization_round_trip_witness :
    firstMissing orgPayloadExample
      (requiredFields ResourceKind.organization) = none ∧
    (register_organization cfgEx orgPayloadExample (some "local")
        (constBackend 200 (.json orgResponseExample))).requests =
      [mkRequest cfgEx "POST" "/organization" (serverQuery (some "local"))
        (some orgPayloadExample)] :=
  ⟨rfl, register_organization_round_trip.2 cfgEx orgPayloadExample
    (some "local") (constBackend 200 (.json orgResponseExample)) rfl⟩

/-- Claim C7: search_datasets with a supplied keys sequence whose length
differs from the terms fails locally with a valueError before any
request; when the lengths match, or keys is absent, the single search
request is built and sent. -/
theorem search_terms_keys_length_contract (cfg : ClientConfig)
    (terms : List String) (ks : List (Option String))
    (server : Option String) (backend : Backend) :
    (ks.length ≠ terms.length →
      (search_datasets cfg terms (some ks) server backend).requests = [] ∧
      (search_datasets cfg terms (some ks) server backend).outcome =
        .error (.valueError "Length of terms and keys must match")) ∧
    (ks.length = terms.length →
      (search_datasets cfg terms (some ks) server backend).requests =
        [mkRequest cfg "GET" "/search" (searchQuery terms (some ks) server)
          none]) ∧
    (search_datasets cfg terms none server backend).requests =
      [mkRequest cfg "GET" "/search" (searchQuery terms none server) none] := by
  refine ⟨fun h => ?_, fun h => ?_, rfl⟩
  · constructor <;> simp [search_datasets, h, failLocal]
  · simp [search_datasets, h, sendRequest]

/-- Witness for claim C7: one term with two keys fails locally with no
request issued. -/
theorem search_terms_keys_length_contract_witness :
    ([some "title", none] : List (Option String)).length ≠
      (["climate"] : List String).length ∧
    (search_datasets cfgEx ["climate"] (some [some "title", none]) none
        (constBackend 200 .empty)).requests = [] ∧
    (search_datasets cfgEx ["climate"] (some [some "title", none]) none
        (constBackend 200 .empty)).outcome =
      .error (.valueError "Length of terms and keys must match") := by
  have h := search_terms_keys_length_contract cfgEx ["climate"]
    [some "title", none] none (constBackend 200 .empty)
  exact ⟨by decide, (h.1 (by decide)).1, (h.1 (by decide)).2⟩

end NdpEp
